import Mathlib

/-!
Shallow embedding of the anonymous-helpline chatbot core
(`src/logic.py` and the lifecycle/relay parts of `src/main.py`).

The persistent store (PostgreSQL tables `users`, `conversations`,
`reflected_messages`) is modelled as an explicit state record of row
lists; each Python function becomes a state-passing Lean function.
Values read from the database can be SQL NULL, so scalar results are
modelled by `PyVal` (a Python value that is either `None` or an int).
Outcomes of the storage layer that arise only from concurrent
interference (constraint-violation exceptions raised by an INSERT) and
the randomized `ORDER BY random() LIMIT 1` row choice are passed in as
explicit parameters.
-/

/-- A Python scalar fetched from the database: either `None` (SQL NULL)
or an integer. -/
inductive PyVal where
  | none
  | int (n : Int)
deriving DecidableEq, Repr

/-- Python `==` between a fetched scalar and an `int` literal:
`None == m` is `False`, `n == m` is integer equality. -/
def pyEqInt (v : PyVal) (m : Int) : Bool :=
  match v with
  | PyVal.none => false
  | PyVal.int n => n == m

/-- A row of the `users` table.  The columns beyond `tg_id` are not
created by code under `src/` (the schema lives outside it); their
presence and meaning follow the spec data model (globalId, localId,
isOperatorRole, isAdmin). -/
structure UserRow where
  tg_id : Int
  local_id : Int
  is_operator : Bool
  is_admin : Bool
deriving DecidableEq, Repr

/-- A row of the `conversations` table. -/
structure ConversationRow where
  client_id : Int
  operator_id : Int
deriving DecidableEq, Repr

/-- A row of the `reflected_messages` table. -/
structure ReflectedRow where
  sender_chat_id : Int
  sender_message_id : Int
  receiver_chat_id : Int
  receiver_message_id : Int
deriving DecidableEq, Repr

/-- The database state. `next_local_id` models the sequential
generator behind `users.local_id` (spec: "small sequential display
identifier, assigned once"); the generator itself is schema code not
under `src/`. -/
structure DBState where
  users : List UserRow
  conversations : List ConversationRow
  reflected_messages : List ReflectedRow
  next_local_id : Int
deriving DecidableEq, Repr

/-- `add_user` (`logic.py`):
`INSERT INTO users(tg_id) VALUES (%s) ON CONFLICT DO NOTHING`.
If a row with this `tg_id` exists nothing happens; otherwise a fresh
row is inserted with the next sequential local id (column defaults are
schema code not under `src/`; modelled from the spec: role flags start
false, localId is assigned once from a monotonic sequence). -/
def add_user (st : DBState) (tg_id : Int) : DBState :=
  if st.users.any fun u => u.tg_id == tg_id then st
  else { st with
           users := st.users ++ [⟨tg_id, st.next_local_id, false, false⟩],
           next_local_id := st.next_local_id + 1 }

/-- The subselect `(SELECT local_id FROM users WHERE tg_id=...)`:
`NULL` (Python `None`) when no such user row exists. -/
def localIdOf (st : DBState) (tg : Int) : PyVal :=
  match st.users.find? fun u => u.tg_id == tg with
  | Option.none => PyVal.none
  | Option.some u => PyVal.int u.local_id

/-- `get_conversing` (`logic.py`): select the conversation row where the
given id is client or operator (`fetchone` takes the first such row);
if none, the `TypeError` handler returns the sentinel
`((-1, -1), (-1, -1))`, otherwise `((client_id, client_local),
(operator_id, operator_local))`. -/
def get_conversing (st : DBState) (tg_id : Int) :
    (PyVal × PyVal) × (PyVal × PyVal) :=
  match st.conversations.find? fun r =>
      r.client_id == tg_id || r.operator_id == tg_id with
  | Option.none =>
      ((PyVal.int (-1), PyVal.int (-1)), (PyVal.int (-1), PyVal.int (-1)))
  | Option.some r =>
      ((PyVal.int r.client_id, localIdOf st r.client_id),
       (PyVal.int r.operator_id, localIdOf st r.operator_id))

/-- Modelled from the spec: the storage-defined predicate
`user_is_operator(tg_id)` used by the assignment INSERT lives in the
database schema, which is not under `src/`.  Per the spec the candidate
pool is "among all identities with `isOperatorRole = true`", so the
predicate is the role flag of the user row. -/
def user_is_operator (u : UserRow) : Bool :=
  u.is_operator

/-- `exists(SELECT 1 FROM conversations WHERE client_id=tg_id OR
operator_id=tg_id)`: the identity appears in some active conversation
in either role. -/
def isBusy (st : DBState) (tg : Int) : Bool :=
  st.conversations.any fun r => r.client_id == tg || r.operator_id == tg

/-- The candidate set of the assignment INSERT's SELECT: users with the
operator role, different from the requesting client, appearing in no
active conversation in either role. -/
def eligibleOperators (st : DBState) (tg_client_id : Int) : List Int :=
  (st.users.filter fun u =>
      user_is_operator u && !(tg_client_id == u.tg_id) && !(isBusy st u.tg_id)
    ).map fun u => u.tg_id

/-- Effect of `INSERT INTO conversations(client_id, operator_id)
SELECT ... ORDER BY random() LIMIT 1` when no constraint fires: `pick`
stands for the randomized row choice; when it yields an operator a
single conversation row is inserted, when the candidate set gives
nothing no row is inserted (and no error occurs). -/
def insertSelectedOperator (st : DBState) (pick : List Int → Option Int)
    (tg_client_id : Int) : DBState :=
  match pick (eligibleOperators st tg_client_id) with
  | Option.none => st
  | Option.some o =>
      { st with conversations := st.conversations ++ [⟨tg_client_id, o⟩] }

/-- Outcome of executing the assignment INSERT against the store: it
either succeeds, or raises `psycopg2.errors.UniqueViolation`, or raises
`psycopg2.errors.CheckViolation` carrying the server error text
`pgerror`.  Which one happens depends on concurrent transactions, so it
is a parameter of the model. -/
inductive InsertOutcome where
  | ok
  | uniqueViolation
  | checkViolation (pgerror : String)
deriving DecidableEq, Repr

/-- Character-list substring scan: does `n` occur contiguously in `h`? -/
def strContainsAux (h n : List Char) : Bool :=
  match h with
  | [] => n.isEmpty
  | _ :: t => n.isPrefixOf h || strContainsAux t n

/-- Python `needle in haystack` on strings (substring test), used on
`e.pgerror`. -/
def strContains (haystack needle : String) : Bool :=
  strContainsAux haystack.data needle.data

/-- `start_conversation` (`logic.py`).  Returns the Python pair
`(code, conversing-or-None)` together with the post state:
* precondition: if `get_conversing(tg_client_id)[0][0] == tg_client_id`
  return `(1, None)` before any INSERT is attempted;
* the INSERT: `UniqueViolation` is remapped to `(1, None)`,
  `CheckViolation` to `(2, None)` when the error text names
  `client_is_not_operating` and to `(-1, None)` otherwise;
* afterwards `(3, None)` when `get_conversing` still reports the
  sentinel, else `(0, get_conversing(tg_client_id))`. -/
def start_conversation (st : DBState) (pick : List Int → Option Int)
    (ins : InsertOutcome) (tg_client_id : Int) :
    (Int × Option ((PyVal × PyVal) × (PyVal × PyVal))) × DBState :=
  if pyEqInt (get_conversing st tg_client_id).1.1 tg_client_id then
    ((1, Option.none), st)
  else
    match ins with
    | InsertOutcome.uniqueViolation => ((1, Option.none), st)
    | InsertOutcome.checkViolation e =>
        if strContains e "client_is_not_operating" then ((2, Option.none), st)
        else ((-1, Option.none), st)
    | InsertOutcome.ok =>
        let st' := insertSelectedOperator st pick tg_client_id
        let conversing := get_conversing st' tg_client_id
        if pyEqInt conversing.1.1 (-1) then ((3, Option.none), st')
        else ((0, Option.some conversing), st')

/-- `end_conversation` (`logic.py`):
`DELETE FROM conversations WHERE client_id=%s`. -/
def end_conversation (st : DBState) (tg_client_id : Int) : DBState :=
  { st with conversations :=
      st.conversations.filter fun r => !(r.client_id == tg_client_id) }

/-- The lifecycle part of `end_conversation_handler` (`main.py`):
look up the conversation of the caller; if `operator_tg == -1` reply
"not conversing" and change nothing; if `operator_tg == message.chat.id`
refuse (operator cannot end) and change nothing; otherwise delete the
caller's conversation row and hand the conversing data (in particular
the former operator's identity pair, used for the rating keyboard and
the notification) to the transport layer. -/
def end_conversation_handler (st : DBState) (chat_id : Int) :
    Option ((PyVal × PyVal) × (PyVal × PyVal)) × DBState :=
  let conv := get_conversing st chat_id
  if pyEqInt conv.2.1 (-1) then (Option.none, st)
  else if pyEqInt conv.2.1 chat_id then (Option.none, st)
  else (Option.some conv, end_conversation st chat_id)

/-- Result of the platform send (`bot.send_message`): either the
delivered message's chat id and message id, or a raised exception. -/
inductive SendResult where
  | delivered (chat_id : Int) (message_id : Int)
  | failed
deriving DecidableEq, Repr

/-- Observable outcome of one run of `text_message_handler`. -/
inductive RelayOutcome where
  | noActiveConversation
  | replyTargetUnresolved
  | relayed
  | deliveryFailed
deriving DecidableEq, Repr

/-- What one run of `text_message_handler` did: its outcome, the send
request issued to the platform (target chat and the
`reply_to_message_id` argument), if any, and the post state. -/
structure RelayResult where
  outcome : RelayOutcome
  sent : Option (PyVal × Option Int)
  state : DBState
deriving DecidableEq, Repr

/-- `interlocutor_id` in `text_message_handler`:
`client_tg if message.chat.id != client_tg else operator_tg`. -/
def relayInterlocutor (st : DBState) (chat_id : Int) : PyVal :=
  let conv := get_conversing st chat_id
  if !(pyEqInt conv.1.1 chat_id) then conv.1.1 else conv.2.1

/-- The reply-target lookup of `text_message_handler`:
`SELECT sender_message_id FROM reflected_messages WHERE
sender_chat_id=%s AND receiver_chat_id=%s AND receiver_message_id=%s`
with parameters `(interlocutor_id, message.chat.id,
message.reply_to_message.message_id)`. -/
def replyLookup (st : DBState) (chat_id : Int) (rid : Int) :
    Option ReflectedRow :=
  st.reflected_messages.find? fun r =>
    pyEqInt (relayInterlocutor st chat_id) r.sender_chat_id &&
    r.receiver_chat_id == chat_id && r.receiver_message_id == rid

/-- `text_message_handler` (`main.py`):
1. `get_conversing(message.chat.id)`; if `client_tg == -1` reply "no
   counterpart" and stop;
2. when the message is a reply, resolve the target through
   `reflected_messages` (see `replyLookup`); a missing record replies
   "conversation already over" and stops;
3. send the text to the interlocutor (the formatting-warning loop over
   `message.entities` only emits an extra warning reply and touches no
   state, so it is not part of the state model); a raised send
   exception propagates to `nonfalling_handler`, so the two ledger
   INSERTs below never run;
4. on successful delivery insert the two symmetric
   `reflected_messages` rows linking the original and the delivered
   message. -/
def text_message_handler (st : DBState) (chat_id message_id : Int)
    (reply_to_message_id : Option Int) (send : SendResult) : RelayResult :=
  let conv := get_conversing st chat_id
  if pyEqInt conv.1.1 (-1) then
    ⟨RelayOutcome.noActiveConversation, Option.none, st⟩
  else
    let interlocutor := relayInterlocutor st chat_id
    let resolved : Option (Option Int) :=
      match reply_to_message_id with
      | Option.none => Option.some Option.none
      | Option.some rid =>
          match replyLookup st chat_id rid with
          | Option.none => Option.none
          | Option.some row => Option.some (Option.some row.sender_message_id)
    match resolved with
    | Option.none => ⟨RelayOutcome.replyTargetUnresolved, Option.none, st⟩
    | Option.some reply_to =>
        match send with
        | SendResult.failed =>
            ⟨RelayOutcome.deliveryFailed,
             Option.some (interlocutor, reply_to), st⟩
        | SendResult.delivered schat smid =>
            ⟨RelayOutcome.relayed, Option.some (interlocutor, reply_to),
             { st with reflected_messages := st.reflected_messages ++
                 [⟨chat_id, message_id, schat, smid⟩,
                  ⟨schat, smid, chat_id, message_id⟩] }⟩

/-- Modelled from the spec: the `conversations` table constraints are
schema code not under `src/`.  Per the spec data model: rows are
distinct, no identity is simultaneously a client and an operator (in
the same or different rows, which also forces `clientId != operatorId`
per row), no identity is the client of two rows, and no identity is
the operator of two rows. -/
def dbConstraintsOK (st : DBState) : Prop :=
  st.conversations.Nodup ∧
  (∀ r1 ∈ st.conversations, ∀ r2 ∈ st.conversations,
     r1.client_id ≠ r2.operator_id) ∧
  (∀ r1 ∈ st.conversations, ∀ r2 ∈ st.conversations,
     r1.client_id = r2.client_id → r1 = r2) ∧
  (∀ r1 ∈ st.conversations, ∀ r2 ∈ st.conversations,
     r1.operator_id = r2.operator_id → r1 = r2)

instance (st : DBState) : Decidable (dbConstraintsOK st) := by
  unfold dbConstraintsOK
  infer_instance

/-! ### Helper lemmas -/

/-- Under the schema constraints, when some row has the given id as
client, `find?` over the conversation table with the
client-or-operator filter returns exactly that row. -/
lemma find_row_of_client (l : List ConversationRow) (c : Int)
    (r : ConversationRow)
    (hdual : ∀ r1 ∈ l, ∀ r2 ∈ l, r1.client_id ≠ r2.operator_id)
    (huniq : ∀ r1 ∈ l, ∀ r2 ∈ l, r1.client_id = r2.client_id → r1 = r2)
    (hr : r ∈ l) (hc : r.client_id = c) :
    l.find? (fun x => x.client_id == c || x.operator_id == c) =
      Option.some r := by
  induction l with
  | nil => cases hr
  | cons h t ih =>
    by_cases hp : (h.client_id == c || h.operator_id == c) = true
    · rw [List.find?_cons]
      simp only [hp]
      have hp' : h.client_id = c ∨ h.operator_id = c := by simpa using hp
      rcases hp' with h1 | h2
      · have := huniq h (List.mem_cons_self _ _) r hr (by rw [h1, hc])
        rw [this]
      · exact absurd (hc.trans h2.symm)
          (hdual r hr h (List.mem_cons_self _ _))
    · rw [List.find?_cons]
      simp only [Bool.not_eq_true] at hp
      simp only [hp]
      have hrt : r ∈ t := by
        rcases List.mem_cons.mp hr with heq | hrt
        · rw [← heq, hc] at hp
          simp at hp
        · exact hrt
      exact ih
        (fun r1 h1 r2 h2 =>
          hdual r1 (List.mem_cons_of_mem _ h1) r2 (List.mem_cons_of_mem _ h2))
        (fun r1 h1 r2 h2 =>
          huniq r1 (List.mem_cons_of_mem _ h1) r2 (List.mem_cons_of_mem _ h2))
        hrt

/-- Under the no-dual-role constraint, when some row has the given id
as operator, `find?` with the client-or-operator filter returns a row
whose operator is that id. -/
lemma find_row_operator_of_exists (l : List ConversationRow) (tg : Int)
    (r : ConversationRow)
    (hdual : ∀ r1 ∈ l, ∀ r2 ∈ l, r1.client_id ≠ r2.operator_id)
    (hr : r ∈ l) (hro : r.operator_id = tg) :
    ∃ r0, l.find? (fun x => x.client_id == tg || x.operator_id == tg) =
        Option.some r0 ∧ r0.operator_id = tg := by
  cases hfind : l.find? fun x => x.client_id == tg || x.operator_id == tg with
  | none =>
      exact absurd (by simp [hro])
        (List.find?_eq_none.mp hfind r hr)
  | some r0 =>
      refine ⟨r0, rfl, ?_⟩
      have hp : r0.client_id = tg ∨ r0.operator_id = tg := by
        simpa using List.find?_some hfind
      rcases hp with h1 | h2
      · exact absurd (h1.trans hro.symm)
          (hdual r0 (List.mem_of_find?_eq_some hfind) r hr)
      · exact h2

/-- When the sender is in a conversation but the replied-to message has
no ledger record, `text_message_handler` stops with
`replyTargetUnresolved`, issues no send, and changes nothing. -/
lemma relay_reply_unresolved_aux (st : DBState) (chat mid rid : Int)
    (send : SendResult)
    (hconv : pyEqInt (get_conversing st chat).1.1 (-1) = false)
    (hlook : replyLookup st chat rid = Option.none) :
    text_message_handler st chat mid (Option.some rid) send =
      ⟨RelayOutcome.replyTargetUnresolved, Option.none, st⟩ := by
  simp only [text_message_handler, hconv, hlook, Bool.false_eq_true,
    if_false]

/-! ### Claim theorems -/

/-- Claim C1 (code bug evidence): with users 10 (no operator role) and
7 (operator role), and the single conversation row (client 10,
operator 7), calling `start_conversation` for 7 — who is currently
*operating* — finds no eligible operator, inserts nothing, raises no
constraint violation, and still returns success code 0 with the data
of the conversation in which 7 is the operator, while the state is
unchanged: no conversation row pairing 7 as client was created, which
contradicts both the claim and the function's own docstring ("(2,
None) if the client is operating"). -/
theorem start_conversation_code0_without_row_creation :
    start_conversation
        ⟨[⟨10, 1, false, false⟩, ⟨7, 2, true, false⟩], [⟨10, 7⟩], [], 3⟩
        List.head? InsertOutcome.ok 7 =
      ((0, Option.some ((PyVal.int 10, PyVal.int 1),
                        (PyVal.int 7, PyVal.int 2))),
       ⟨[⟨10, 1, false, false⟩, ⟨7, 2, true, false⟩], [⟨10, 7⟩], [], 3⟩) := by
  decide

/-- Claim C2: once execution reaches the assignment INSERT (the
already-in-conversation precondition did not fire), every modelled
constraint violation is remapped to a business outcome with the state
unchanged: a uniqueness violation yields code 1, a check violation
whose error text names `client_is_not_operating` yields code 2, and
any other check violation yields code -1. -/
theorem start_conversation_remaps_constraint_violations
    (st : DBState) (pick : List Int → Option Int) (c : Int) (e : String)
    (h : pyEqInt (get_conversing st c).1.1 c = false) :
    start_conversation st pick InsertOutcome.uniqueViolation c =
      ((1, Option.none), st) ∧
    (strContains e "client_is_not_operating" = true →
      start_conversation st pick (InsertOutcome.checkViolation e) c =
        ((2, Option.none), st)) ∧
    (strContains e "client_is_not_operating" = false →
      start_conversation st pick (InsertOutcome.checkViolation e) c =
        ((-1, Option.none), st)) := by
  refine ⟨?_, ?_, ?_⟩
  · unfold start_conversation
    rw [h]
    simp
  · intro hs
    unfold start_conversation
    rw [h]
    simp only [Bool.false_eq_true, if_false, hs, if_true]
  · intro hs
    unfold start_conversation
    rw [h]
    simp only [Bool.false_eq_true, if_false, hs]

/-- Witness for C2 at a concrete state: the empty database, client 1,
and a check-violation text naming the business rule. -/
theorem start_conversation_remaps_constraint_violations_witness :
    start_conversation ⟨[], [], [], 0⟩ List.head?
        (InsertOutcome.checkViolation
          "new row violates check constraint client_is_not_operating") 1 =
      ((2, Option.none), ⟨[], [], [], 0⟩) ∧
    start_conversation ⟨[], [], [], 0⟩ List.head?
        InsertOutcome.uniqueViolation 1 =
      ((1, Option.none), ⟨[], [], [], 0⟩) := by
  have h := start_conversation_remaps_constraint_violations
    ⟨[], [], [], 0⟩ List.head? 1
    "new row violates check constraint client_is_not_operating"
    (by decide)
  exact ⟨h.2.1 (by decide), h.1⟩

/-- Claim C9: for an identity appearing in no conversation row in
either role, `get_conversing` returns the sentinel
`((-1, -1), (-1, -1))` — in particular not the all-`None` pair its
docstring promises — and the comparisons against `-1` that
`text_message_handler` and `end_conversation_handler` use to detect
the not-in-conversation case both come out true. -/
theorem get_conversing_sentinel_when_not_conversing
    (st : DBState) (tg : Int)
    (h : ∀ r ∈ st.conversations, r.client_id ≠ tg ∧ r.operator_id ≠ tg) :
    get_conversing st tg =
      ((PyVal.int (-1), PyVal.int (-1)),
       (PyVal.int (-1), PyVal.int (-1))) ∧
    get_conversing st tg ≠
      ((PyVal.none, PyVal.none), (PyVal.none, PyVal.none)) ∧
    pyEqInt (get_conversing st tg).1.1 (-1) = true ∧
    pyEqInt (get_conversing st tg).2.1 (-1) = true := by
  have hfind : (st.conversations.find? fun r =>
      r.client_id == tg || r.operator_id == tg) = Option.none := by
    rw [List.find?_eq_none]
    intro r hr
    simp [(h r hr).1, (h r hr).2]
  have h1 : get_conversing st tg =
      ((PyVal.int (-1), PyVal.int (-1)),
       (PyVal.int (-1), PyVal.int (-1))) := by
    unfold get_conversing
    rw [hfind]
  exact ⟨h1, by rw [h1]; decide, by rw [h1]; decide, by rw [h1]; decide⟩

/-- Witness for C9: identity 3 in a state whose only conversation is
between 5 and 6. -/
theorem get_conversing_sentinel_when_not_conversing_witness :
    get_conversing ⟨[], [⟨5, 6⟩], [], 0⟩ 3 =
      ((PyVal.int (-1), PyVal.int (-1)),
       (PyVal.int (-1), PyVal.int (-1))) :=
  (get_conversing_sentinel_when_not_conversing ⟨[], [⟨5, 6⟩], [], 0⟩ 3
    (by decide)).1

/-- Claim C10: registering an already-present identity is a no-op:
the state (hence the registry size and the existing row, local id
included) is unchanged and no error is possible (`add_user` is total). -/
theorem add_user_idempotent (st : DBState) (tg : Int)
    (h : (st.users.any fun u => u.tg_id == tg) = true) :
    add_user st tg = st ∧
    (add_user st tg).users.length = st.users.length ∧
    ∀ u ∈ st.users, u ∈ (add_user st tg).users := by
  have h1 : add_user st tg = st := by
    unfold add_user
    rw [h]
    simp
  exact ⟨h1, by rw [h1], fun u hu => by rw [h1]; exact hu⟩

/-- Witness for C10: re-registering identity 3. -/
theorem add_user_idempotent_witness :
    add_user ⟨[⟨3, 1, false, false⟩], [], [], 2⟩ 3 =
      ⟨[⟨3, 1, false, false⟩], [], [], 2⟩ :=
  (add_user_idempotent ⟨[⟨3, 1, false, false⟩], [], [], 2⟩ 3 (by decide)).1

/-- Claim C3: under the schema constraints, whenever some conversation
row has the caller as its client, `start_conversation` returns
`(1, None)` with the state unchanged, for *every* possible INSERT
outcome and every possible randomized choice — i.e. the
already-in-conversation answer comes from the precondition check and
never depends on classifying a constraint violation after the fact. -/
theorem start_conversation_precheck_already_in_conversation
    (st : DBState) (pick : List Int → Option Int) (ins : InsertOutcome)
    (c : Int) (hwf : dbConstraintsOK st)
    (hc : ∃ r ∈ st.conversations, r.client_id = c) :
    start_conversation st pick ins c = ((1, Option.none), st) := by
  obtain ⟨r, hr, hrc⟩ := hc
  obtain ⟨-, hdual, huniq, -⟩ := hwf
  have hfind := find_row_of_client st.conversations c r hdual huniq hr hrc
  have h1 : pyEqInt (get_conversing st c).1.1 c = true := by
    unfold get_conversing
    rw [hfind]
    simp [pyEqInt, hrc]
  unfold start_conversation
  rw [h1]
  simp

/-- Witness for C3: client 5 of the sole conversation (5, 6) calling
again, with an `ok` INSERT outcome. -/
theorem start_conversation_precheck_already_in_conversation_witness :
    start_conversation ⟨[], [⟨5, 6⟩], [], 0⟩ List.head? InsertOutcome.ok 5 =
      ((1, Option.none), ⟨[], [⟨5, 6⟩], [], 0⟩) :=
  start_conversation_precheck_already_in_conversation
    ⟨[], [⟨5, 6⟩], [], 0⟩ List.head? InsertOutcome.ok 5 (by decide)
    ⟨⟨5, 6⟩, by decide, rfl⟩

/-- Claim C4: under the schema constraints, ending a conversation for
an id with no client row is an idempotent no-op (both for the bare
DELETE and for the full handler), and for the client of an existing
row (with a well-formed operator id) the handler hands the former
operator's identity pair back to the caller and the DELETE removes
exactly that client's row, leaving every other row in place. -/
theorem end_conversation_client_delete_and_report
    (st : DBState) (c : Int) (hwf : dbConstraintsOK st) :
    ((∀ r ∈ st.conversations, r.client_id ≠ c) →
       end_conversation st c = st ∧
       end_conversation_handler st c = (Option.none, st)) ∧
    (∀ r ∈ st.conversations, r.client_id = c → r.operator_id ≠ -1 →
       (end_conversation_handler st c).1 =
         Option.some ((PyVal.int r.client_id, localIdOf st r.client_id),
                      (PyVal.int r.operator_id, localIdOf st r.operator_id)) ∧
       (end_conversation_handler st c).2 = end_conversation st c ∧
       r ∉ (end_conversation st c).conversations ∧
       ∀ x ∈ st.conversations, x.client_id ≠ c →
         x ∈ (end_conversation st c).conversations) := by
  obtain ⟨-, hdual, huniq, -⟩ := hwf
  constructor
  · intro hno
    have hfil : (st.conversations.filter fun r => !(r.client_id == c)) =
        st.conversations := by
      apply List.filter_eq_self.mpr
      intro a ha
      simp [hno a ha]
    have hend : end_conversation st c = st := by
      unfold end_conversation
      rw [hfil]
    refine ⟨hend, ?_⟩
    cases hfind : st.conversations.find? fun x =>
        x.client_id == c || x.operator_id == c with
    | none =>
        have hgc : get_conversing st c =
            ((PyVal.int (-1), PyVal.int (-1)),
             (PyVal.int (-1), PyVal.int (-1))) := by
          unfold get_conversing
          rw [hfind]
        simp [end_conversation_handler, hgc, pyEqInt]
    | some r0 =>
        have hmem := List.mem_of_find?_eq_some hfind
        have hp : r0.client_id = c ∨ r0.operator_id = c := by
          simpa using List.find?_some hfind
        have hop : r0.operator_id = c := by
          rcases hp with h1 | h2
          · exact absurd h1 (hno r0 hmem)
          · exact h2
        have hgc : get_conversing st c =
            ((PyVal.int r0.client_id, localIdOf st r0.client_id),
             (PyVal.int r0.operator_id, localIdOf st r0.operator_id)) := by
          unfold get_conversing
          rw [hfind]
        by_cases h1 : pyEqInt (PyVal.int r0.operator_id) (-1) = true
        · simp [end_conversation_handler, hgc, h1]
        · simp [end_conversation_handler, hgc, h1, pyEqInt, hop]
  · intro r hr hrc hop
    have hfind := find_row_of_client st.conversations c r hdual huniq hr hrc
    have hgc : get_conversing st c =
        ((PyVal.int r.client_id, localIdOf st r.client_id),
         (PyVal.int r.operator_id, localIdOf st r.operator_id)) := by
      unfold get_conversing
      rw [hfind]
    have hneqc : r.operator_id ≠ c := by
      intro hh
      exact (hdual r hr r hr) (hrc.trans hh.symm)
    have hb1 : pyEqInt (PyVal.int r.operator_id) (-1) = false := by
      simp only [pyEqInt]
      exact beq_false_of_ne hop
    have hb2 : pyEqInt (PyVal.int r.operator_id) c = false := by
      simp only [pyEqInt]
      exact beq_false_of_ne hneqc
    have hhandler : end_conversation_handler st c =
        (Option.some ((PyVal.int r.client_id, localIdOf st r.client_id),
                      (PyVal.int r.operator_id, localIdOf st r.operator_id)),
         end_conversation st c) := by
      simp only [end_conversation_handler, hgc, hb1, hb2,
        Bool.false_eq_true, if_false]
    refine ⟨by rw [hhandler], by rw [hhandler], ?_, ?_⟩
    · simp [end_conversation, List.mem_filter, hrc]
    · intro x hx hxc
      simp [end_conversation, List.mem_filter, hx, hxc]

/-- Witness for C4: client 5 ending the sole conversation (5, 6). -/
theorem end_conversation_client_delete_and_report_witness :
    (end_conversation_handler ⟨[], [⟨5, 6⟩], [], 0⟩ 5).1 =
      Option.some ((PyVal.int 5, PyVal.none), (PyVal.int 6, PyVal.none)) ∧
    (⟨5, 6⟩ : ConversationRow) ∉
      (end_conversation ⟨[], [⟨5, 6⟩], [], 0⟩ 5).conversations := by
  have h := (end_conversation_client_delete_and_report
    ⟨[], [⟨5, 6⟩], [], 0⟩ 5 (by decide)).2 ⟨5, 6⟩ (by decide) rfl (by decide)
  exact ⟨h.1, h.2.2.1⟩

/-- Claim C8: under the schema constraints, `end_conversation` keeps
every row in which the given identity is the operator, any row it does
remove has that identity as its client, and when the identity is an
operator of some row the end handler refuses: it returns no operator
data and leaves the state unchanged. -/
theorem end_conversation_operator_rows_preserved
    (st : DBState) (tg : Int) (hwf : dbConstraintsOK st) :
    (∀ r ∈ st.conversations, r.operator_id = tg →
       r ∈ (end_conversation st tg).conversations) ∧
    (∀ r ∈ st.conversations, r ∉ (end_conversation st tg).conversations →
       r.client_id = tg) ∧
    ((∃ r ∈ st.conversations, r.operator_id = tg) →
       end_conversation_handler st tg = (Option.none, st)) := by
  obtain ⟨-, hdual, -, -⟩ := hwf
  refine ⟨?_, ?_, ?_⟩
  · intro r hr hro
    have hne : r.client_id ≠ tg := by
      intro hh
      exact (hdual r hr r hr) (hh.trans hro.symm)
    simp [end_conversation, List.mem_filter, hr, hne]
  · intro r hr hnot
    by_contra hne
    exact hnot (by simp [end_conversation, List.mem_filter, hr, hne])
  · rintro ⟨r, hr, hro⟩
    obtain ⟨r0, hfind, hr0⟩ :=
      find_row_operator_of_exists st.conversations tg r hdual hr hro
    have hgc : get_conversing st tg =
        ((PyVal.int r0.client_id, localIdOf st r0.client_id),
         (PyVal.int r0.operator_id, localIdOf st r0.operator_id)) := by
      unfold get_conversing
      rw [hfind]
    by_cases h1 : pyEqInt (PyVal.int r0.operator_id) (-1) = true
    · simp [end_conversation_handler, hgc, h1]
    · simp [end_conversation_handler, hgc, h1, pyEqInt, hr0]

/-- Witness for C8: operator 6 of the sole conversation (5, 6) cannot
end it, and the row survives `end_conversation 6`. -/
theorem end_conversation_operator_rows_preserved_witness :
    end_conversation_handler ⟨[], [⟨5, 6⟩], [], 0⟩ 6 =
      (Option.none, ⟨[], [⟨5, 6⟩], [], 0⟩) ∧
    (⟨5, 6⟩ : ConversationRow) ∈
      (end_conversation ⟨[], [⟨5, 6⟩], [], 0⟩ 6).conversations := by
  have h := end_conversation_operator_rows_preserved
    ⟨[], [⟨5, 6⟩], [], 0⟩ 6 (by decide)
  exact ⟨h.2.2 ⟨⟨5, 6⟩, by decide, rfl⟩, h.1 ⟨5, 6⟩ (by decide) rfl⟩

/-- Exhaustive shape of one `text_message_handler` run: it stops with
no counterpart, stops with an unresolved reply target, attempts the
send and fails (state untouched), or delivers and appends exactly the
two symmetric ledger rows. -/
lemma text_message_handler_cases (st : DBState) (chat mid : Int)
    (rto : Option Int) (send : SendResult) :
    text_message_handler st chat mid rto send =
        ⟨RelayOutcome.noActiveConversation, Option.none, st⟩ ∨
    text_message_handler st chat mid rto send =
        ⟨RelayOutcome.replyTargetUnresolved, Option.none, st⟩ ∨
    (∃ tgt rt, send = SendResult.failed ∧
       text_message_handler st chat mid rto send =
         ⟨RelayOutcome.deliveryFailed, Option.some (tgt, rt), st⟩) ∨
    (∃ tgt rt rc rm, send = SendResult.delivered rc rm ∧
       text_message_handler st chat mid rto send =
         ⟨RelayOutcome.relayed, Option.some (tgt, rt),
          { st with reflected_messages := st.reflected_messages ++
              [⟨chat, mid, rc, rm⟩, ⟨rc, rm, chat, mid⟩] }⟩) := by
  by_cases h1 : pyEqInt (get_conversing st chat).1.1 (-1) = true
  · left
    simp only [text_message_handler, h1, if_true]
  · have h1' : pyEqInt (get_conversing st chat).1.1 (-1) = false := by
      simpa using h1
    cases rto with
    | none =>
        cases send with
        | failed =>
            right; right; left
            exact ⟨relayInterlocutor st chat, Option.none, rfl, by
              simp only [text_message_handler, h1', Bool.false_eq_true,
                if_false]⟩
        | delivered rc rm =>
            right; right; right
            exact ⟨relayInterlocutor st chat, Option.none, rc, rm, rfl, by
              simp only [text_message_handler, h1', Bool.false_eq_true,
                if_false]⟩
    | some rid =>
        cases hlook : replyLookup st chat rid with
        | none =>
            right; left
            exact relay_reply_unresolved_aux st chat mid rid send h1' hlook
        | some row =>
            cases send with
            | failed =>
                right; right; left
                exact ⟨relayInterlocutor st chat,
                  Option.some row.sender_message_id, rfl, by
                  simp only [text_message_handler, h1', Bool.false_eq_true,
                    if_false, hlook]⟩
            | delivered rc rm =>
                right; right; right
                exact ⟨relayInterlocutor st chat,
                  Option.some row.sender_message_id, rc, rm, rfl, by
                  simp only [text_message_handler, h1', Bool.false_eq_true,
                    if_false, hlook]⟩

/-- Claim C5: a failed platform send leaves the whole state — in
particular the relay ledger — unchanged; when the outcome is a
successful relay the ledger grew by exactly the two symmetric rows of
the delivered message pair; and the ledger changes only on a
successful relay. -/
theorem relay_records_require_delivery (st : DBState) (chat mid : Int)
    (rto : Option Int) (send : SendResult) :
    (send = SendResult.failed →
       (text_message_handler st chat mid rto send).state = st) ∧
    (∀ rc rm, send = SendResult.delivered rc rm →
       (text_message_handler st chat mid rto send).outcome =
         RelayOutcome.relayed →
       (text_message_handler st chat mid rto send).state.reflected_messages =
         st.reflected_messages ++
           [⟨chat, mid, rc, rm⟩, ⟨rc, rm, chat, mid⟩]) ∧
    ((text_message_handler st chat mid rto send).state.reflected_messages ≠
       st.reflected_messages →
     (text_message_handler st chat mid rto send).outcome =
       RelayOutcome.relayed) := by
  rcases text_message_handler_cases st chat mid rto send with
    heq | heq | ⟨tgt, rt, hsend, heq⟩ | ⟨tgt, rt, rc, rm, hsend, heq⟩
  · exact ⟨fun _ => by rw [heq], fun rc rm hs ho => by simp [heq] at ho,
      fun hne => by simp [heq] at hne⟩
  · exact ⟨fun _ => by rw [heq], fun rc rm hs ho => by simp [heq] at ho,
      fun hne => by simp [heq] at hne⟩
  · refine ⟨fun _ => by rw [heq], fun rc rm hs ho => ?_,
      fun hne => by simp [heq] at hne⟩
    rw [hsend] at hs
    cases hs
  · refine ⟨fun hs => ?_, fun rc' rm' hs ho => ?_, fun hne => by rw [heq]⟩
    · rw [hsend] at hs
      cases hs
    · rw [hsend] at hs
      injection hs with hrc hrm
      rw [heq, ← hrc, ← hrm]

/-- Witness for C5: in the conversation (5, 6), client 5's message 1
delivered as message 2 in chat 6 appends the two symmetric rows, and
the same message with a failed send changes nothing. -/
theorem relay_records_require_delivery_witness :
    (text_message_handler ⟨[], [⟨5, 6⟩], [], 0⟩ 5 1 Option.none
        (SendResult.delivered 6 2)).state.reflected_messages =
      [⟨5, 1, 6, 2⟩, ⟨6, 2, 5, 1⟩] ∧
    (text_message_handler ⟨[], [⟨5, 6⟩], [], 0⟩ 5 1 Option.none
        SendResult.failed).state = ⟨[], [⟨5, 6⟩], [], 0⟩ := by
  have h := relay_records_require_delivery ⟨[], [⟨5, 6⟩], [], 0⟩ 5 1
    Option.none (SendResult.delivered 6 2)
  have h2 := relay_records_require_delivery ⟨[], [⟨5, 6⟩], [], 0⟩ 5 1
    Option.none SendResult.failed
  refine ⟨?_, h2.1 rfl⟩
  have := h.2.1 6 2 rfl (by decide)
  simpa using this

/-- Claim C6: with the sender in a conversation, a reply is resolved
through `reflected_messages` keyed by the counterpart chat, the
sender's chat and the replied-to message id (`replyLookup`); when no
record matches the run ends as `replyTargetUnresolved` with no send
issued and the state unchanged, and when a record matches the send to
the counterpart threads onto that record's original message id. -/
theorem relay_reply_resolution_via_ledger (st : DBState)
    (chat mid rid : Int) (send : SendResult)
    (hconv : pyEqInt (get_conversing st chat).1.1 (-1) = false) :
    (replyLookup st chat rid = Option.none →
       text_message_handler st chat mid (Option.some rid) send =
         ⟨RelayOutcome.replyTargetUnresolved, Option.none, st⟩) ∧
    (∀ row, replyLookup st chat rid = Option.some row →
       (text_message_handler st chat mid (Option.some rid) send).sent =
         Option.some (relayInterlocutor st chat,
                      Option.some row.sender_message_id)) := by
  constructor
  · intro hlook
    exact relay_reply_unresolved_aux st chat mid rid send hconv hlook
  · intro row hlook
    cases send with
    | failed =>
        simp only [text_message_handler, hconv, Bool.false_eq_true,
          if_false, hlook]
    | delivered rc rm =>
        simp only [text_message_handler, hconv, Bool.false_eq_true,
          if_false, hlook]

/-- Witness for C6: replying to an unrecorded id 9 is unresolved, and
replying to id 9 once the ledger holds (6, 4) -> (5, 9) threads the
send to the counterpart's original message 4. -/
theorem relay_reply_resolution_via_ledger_witness :
    text_message_handler ⟨[], [⟨5, 6⟩], [], 0⟩ 5 1 (Option.some 9)
        (SendResult.delivered 6 2) =
      ⟨RelayOutcome.replyTargetUnresolved, Option.none,
       ⟨[], [⟨5, 6⟩], [], 0⟩⟩ ∧
    (text_message_handler ⟨[], [⟨5, 6⟩], [⟨6, 4, 5, 9⟩], 0⟩ 5 1
        (Option.some 9) (SendResult.delivered 6 2)).sent =
      Option.some (PyVal.int 6, Option.some 4) := by
  constructor
  · exact (relay_reply_resolution_via_ledger ⟨[], [⟨5, 6⟩], [], 0⟩ 5 1 9
      (SendResult.delivered 6 2) (by decide)).1 (by decide)
  · exact (relay_reply_resolution_via_ledger
      ⟨[], [⟨5, 6⟩], [⟨6, 4, 5, 9⟩], 0⟩ 5 1 9
      (SendResult.delivered 6 2) (by decide)).2 ⟨6, 4, 5, 9⟩ (by decide)

/-- Counterexample to claim C7 as stated: sender 5 has no active
conversation and replies to message id 9, which was never relayed
(the ledger is empty), yet the outcome is `noActiveConversation`, not
`replyTargetUnresolved` — so the unresolved outcome does depend on
conversation state. -/
theorem reply_to_unrelayed_depends_on_conversation_state :
    replyLookup ⟨[], [], [], 0⟩ 5 9 = Option.none ∧
    (text_message_handler ⟨[], [], [], 0⟩ 5 1 (Option.some 9)
        (SendResult.delivered 6 2)).outcome =
      RelayOutcome.noActiveConversation ∧
    RelayOutcome.noActiveConversation ≠ RelayOutcome.replyTargetUnresolved := by
  decide

/-- Claim C7 as amended: replying to a message id with no ledger
record yields `replyTargetUnresolved` whenever the sender is in an
active conversation — whatever that conversation is and whatever the
send would do — while a sender with no active conversation gets
`noActiveConversation` before the ledger is consulted. -/
theorem reply_to_unrelayed_target_outcome (st : DBState)
    (chat mid rid : Int) (send : SendResult)
    (hlook : replyLookup st chat rid = Option.none) :
    (pyEqInt (get_conversing st chat).1.1 (-1) = false →
       text_message_handler st chat mid (Option.some rid) send =
         ⟨RelayOutcome.replyTargetUnresolved, Option.none, st⟩) ∧
    (pyEqInt (get_conversing st chat).1.1 (-1) = true →
       text_message_handler st chat mid (Option.some rid) send =
         ⟨RelayOutcome.noActiveConversation, Option.none, st⟩) := by
  constructor
  · intro hconv
    exact relay_reply_unresolved_aux st chat mid rid send hconv hlook
  · intro hconv
    simp only [text_message_handler, hconv, if_true]

/-- Witness for C7 (amended): sender 5, in the conversation (5, 6),
replying to the unrecorded id 9 with a failing send. -/
theorem reply_to_unrelayed_target_outcome_witness :
    text_message_handler ⟨[], [⟨5, 6⟩], [], 0⟩ 5 1 (Option.some 9)
        SendResult.failed =
      ⟨RelayOutcome.replyTargetUnresolved, Option.none,
       ⟨[], [⟨5, 6⟩], [], 0⟩⟩ :=
  (reply_to_unrelayed_target_outcome ⟨[], [⟨5, 6⟩], [], 0⟩ 5 1 9
    SendResult.failed (by decide)).1 (by decide)
